import Mathlib

/-!
Shallow embedding of `src/bot/app.py`, a Flask Telegram-monitoring bot, and
proofs about its five handlers.

Modelling conventions:
* JSON values (request bodies, config values, subscriber-file entries, chat
  identifiers) are the inductive type `JSON` below.  Python numbers (int and
  float alike) are modelled as exact rationals `ℚ`; JSON-decoded `None` is
  `JSON.null`.
* Python code that can raise is embedded in `Except Unit`; `Except.error ()`
  means an exception escaped the modelled fragment (KeyError, TypeError,
  AttributeError, ...).  Outbound HTTP calls are parameters: each handler
  receives the outcome of the call it may perform, so a transport failure is
  an explicit `Except.error` / `Option.none` argument.
* The subscriber file is passed in and out explicitly as `List JSON`: the
  code reads it fresh per request (`load_subscribers`), mutates the list and
  writes it back (`save_subscribers`), so a handler is a function from the
  loaded store to the persisted store.
-/

/-- A JSON value, the data model for request bodies, configuration values and
subscriber-file entries.  Python ints and floats are both `num` (exact
rationals). -/
inductive JSON where
  | null
  | bool (b : Bool)
  | num (q : ℚ)
  | str (s : String)
  | arr (xs : List JSON)
  | obj (kvs : List (String × JSON))

mutual

/-- Structural equality test for `JSON`.  This models Python `==` on
JSON-decoded values: exact on `null`/`num`/`str` and on nested
arrays/objects of those (Python compares dicts key-set-wise, but the program
only ever compares chat identifiers, which are numbers or strings). -/
def JSON.beq : JSON → JSON → Bool
  | .null, .null => true
  | .bool a, .bool b => decide (a = b)
  | .num a, .num b => decide (a = b)
  | .str a, .str b => decide (a = b)
  | .arr a, .arr b => JSON.beqList a b
  | .obj a, .obj b => JSON.beqKVs a b
  | _, _ => false

/-- Elementwise `JSON.beq` on lists. -/
def JSON.beqList : List JSON → List JSON → Bool
  | [], [] => true
  | x :: xs, y :: ys => JSON.beq x y && JSON.beqList xs ys
  | _, _ => false

/-- Elementwise `JSON.beq` on object field lists. -/
def JSON.beqKVs : List (String × JSON) → List (String × JSON) → Bool
  | [], [] => true
  | (k, v) :: xs, (k2, v2) :: ys => (decide (k = k2) && JSON.beq v v2) && JSON.beqKVs xs ys
  | _, _ => false

end

mutual

def JSON.beq_iff : (a b : JSON) → (JSON.beq a b = true ↔ a = b)
  | .null, .null => by simp [JSON.beq]
  | .bool a, .bool b => by simp [JSON.beq]
  | .num a, .num b => by simp [JSON.beq]
  | .str a, .str b => by simp [JSON.beq]
  | .arr a, .arr b => by simp [JSON.beq, JSON.beqList_iff a b]
  | .obj a, .obj b => by simp [JSON.beq, JSON.beqKVs_iff a b]
  | .null, .bool _ => by simp [JSON.beq]
  | .null, .num _ => by simp [JSON.beq]
  | .null, .str _ => by simp [JSON.beq]
  | .null, .arr _ => by simp [JSON.beq]
  | .null, .obj _ => by simp [JSON.beq]
  | .bool _, .null => by simp [JSON.beq]
  | .bool _, .num _ => by simp [JSON.beq]
  | .bool _, .str _ => by simp [JSON.beq]
  | .bool _, .arr _ => by simp [JSON.beq]
  | .bool _, .obj _ => by simp [JSON.beq]
  | .num _, .null => by simp [JSON.beq]
  | .num _, .bool _ => by simp [JSON.beq]
  | .num _, .str _ => by simp [JSON.beq]
  | .num _, .arr _ => by simp [JSON.beq]
  | .num _, .obj _ => by simp [JSON.beq]
  | .str _, .null => by simp [JSON.beq]
  | .str _, .bool _ => by simp [JSON.beq]
  | .str _, .num _ => by simp [JSON.beq]
  | .str _, .arr _ => by simp [JSON.beq]
  | .str _, .obj _ => by simp [JSON.beq]
  | .arr _, .null => by simp [JSON.beq]
  | .arr _, .bool _ => by simp [JSON.beq]
  | .arr _, .num _ => by simp [JSON.beq]
  | .arr _, .str _ => by simp [JSON.beq]
  | .arr _, .obj _ => by simp [JSON.beq]
  | .obj _, .null => by simp [JSON.beq]
  | .obj _, .bool _ => by simp [JSON.beq]
  | .obj _, .num _ => by simp [JSON.beq]
  | .obj _, .str _ => by simp [JSON.beq]
  | .obj _, .arr _ => by simp [JSON.beq]

def JSON.beqList_iff : (a b : List JSON) → (JSON.beqList a b = true ↔ a = b)
  | [], [] => by simp [JSON.beqList]
  | [], _ :: _ => by simp [JSON.beqList]
  | _ :: _, [] => by simp [JSON.beqList]
  | x :: xs, y :: ys => by
    simp [JSON.beqList, JSON.beq_iff x y, JSON.beqList_iff xs ys]

def JSON.beqKVs_iff : (a b : List (String × JSON)) → (JSON.beqKVs a b = true ↔ a = b)
  | [], [] => by simp [JSON.beqKVs]
  | [], _ :: _ => by simp [JSON.beqKVs]
  | _ :: _, [] => by simp [JSON.beqKVs]
  | (k, v) :: xs, (k2, v2) :: ys => by
    simp [JSON.beqKVs, JSON.beq_iff v v2, JSON.beqKVs_iff xs ys, Prod.ext_iff, and_assoc]

end

instance : DecidableEq JSON :=
  fun a b => decidable_of_iff (JSON.beq a b = true) (JSON.beq_iff a b)

/-- Python truthiness (`bool(x)`) on JSON-decoded values: `None`, `False`,
`0`, `""`, `[]` and `\x7b\x7d` are falsy, everything else truthy. -/
def JSON.truthy : JSON → Bool
  | .null => false
  | .bool b => b
  | .num q => q != 0
  | .str s => s != ""
  | .arr xs => !xs.isEmpty
  | .obj kvs => !kvs.isEmpty

/-- Python `d.get(k)`: `None` when the key is absent; raises `AttributeError`
when the receiver is not a dict.  JSON object keys are assumed unique (the
json module keeps one value per key). -/
def JSON.pyGet (j : JSON) (k : String) : Except Unit JSON :=
  match j with
  | .obj kvs => .ok ((kvs.lookup k).getD .null)
  | _ => .error ()

/-- Python `d.get(k, default)`. -/
def JSON.pyGetD (j : JSON) (k : String) (d : JSON) : Except Unit JSON :=
  match j with
  | .obj kvs => .ok ((kvs.lookup k).getD d)
  | _ => .error ()

/-- Python `d[k]` with a string key: `KeyError` when absent, `TypeError` when
the receiver is not a dict. -/
def JSON.pySub (j : JSON) (k : String) : Except Unit JSON :=
  match j with
  | .obj kvs =>
    match kvs.lookup k with
    | some v => .ok v
    | none => .error ()
  | _ => .error ()

/-- Python `x[i]` with a non-negative int index: lists and strings are
indexable (`IndexError` out of range), everything else raises `TypeError`. -/
def JSON.pyIdx (j : JSON) (i : Nat) : Except Unit JSON :=
  match j with
  | .arr xs =>
    match xs.get? i with
    | some v => .ok v
    | none => .error ()
  | .str s =>
    match s.data.get? i with
    | some c => .ok (.str (String.singleton c))
    | none => .error ()
  | _ => .error ()

/-- Requires a Python `str` value (operations such as `.startswith` raise
`AttributeError` on anything else). -/
def JSON.asStr : JSON → Except Unit String
  | .str s => .ok s
  | _ => .error ()

/-- Whether `p` is a prefix of `cs`. -/
def charsStartWith : (cs p : List Char) → Bool
  | _, [] => true
  | [], _ :: _ => false
  | c :: cs, p :: ps => decide (c = p) && charsStartWith cs ps

/-- Python `s.startswith(p)`. -/
def pyStartsWith (s p : String) : Bool :=
  charsStartWith s.data p.data

/-- Python iteration `for x in j`: lists yield elements, strings yield
one-character strings, dicts yield their keys; other values raise
`TypeError`. -/
def pyIter : JSON → Except Unit (List JSON)
  | .arr xs => .ok xs
  | .str s => .ok (s.data.map fun c => .str (String.singleton c))
  | .obj kvs => .ok (kvs.map fun kv => .str kv.1)
  | _ => .error ()

/-- Value of a decimal digit character. -/
def digitVal (c : Char) : Nat := c.toNat - 48

/-- Natural number denoted by a list of decimal digit characters. -/
def natOfDigits (cs : List Char) : Nat :=
  cs.foldl (fun a c => a * 10 + digitVal c) 0

/-- Python `float(s)` restricted to plain decimal literals
`[+-]?digits[.digits]?` (the program only ever receives such strings from
Prometheus scalar values).  Exponent forms, `inf`/`nan` and surrounding
whitespace, which `float` also accepts, are outside the model; `none` models
`ValueError`. -/
def parseDecFloat (s : String) : Option ℚ :=
  let cs := s.data
  let neg := match cs with
    | '-' :: _ => true
    | _ => false
  let cs2 := match cs with
    | '-' :: rest => rest
    | '+' :: rest => rest
    | _ => cs
  let ip := cs2.takeWhile (· ≠ '.')
  let rest := cs2.dropWhile (· ≠ '.')
  let fp := rest.drop 1
  if fp.any (· = '.') then none
  else if !(ip ++ fp).all Char.isDigit then none
  else if ip.isEmpty && fp.isEmpty then none
  else
    let m : Int := (natOfDigits (ip ++ fp) : Int)
    some (mkRat (if neg then -m else m) (10 ^ fp.length))

/-- Python `float(x)` on a JSON-decoded value: numbers pass through, bools
are 0/1, strings are parsed, everything else raises `TypeError`
(`none` models the raised exception). -/
def pyFloat : JSON → Option ℚ
  | .num q => some q
  | .bool b => some (if b then 1 else 0)
  | .str s => parseDecFloat s
  | _ => none

/-- Model of `prom_query` from `app.py`.  The argument is the outcome of the single
`requests.get` on the Prometheus instant-query endpoint: `none` models a
transport failure, timeout, non-2xx status (`raise_for_status`) or a
non-JSON body (`r.json()` raising); `some data` is the decoded response.
Following the source: require `data["status"] == "success"`, take
`data["data"]["result"]`, return `None` if that is falsy, else
`float(results[0]["value"][1])`.  Every exception in the `try` block is
caught and collapsed to `None`. -/
def prom_query (resp : Option JSON) : Option ℚ :=
  match resp with
  | none => none
  | some data =>
    match prom_extract data with
    | .ok v => v
    | .error _ => none
where
  /-- The body of the `try` block, with `return None` as `.ok none` and any
  raised exception as `.error ()`. -/
  prom_extract (data : JSON) : Except Unit (Option ℚ) := do
    let status ← data.pySub "status"
    if status ≠ .str "success" then
      return none
    let d ← data.pySub "data"
    let results ← d.pySub "result"
    if !results.truthy then
      return none
    let first ← results.pyIdx 0
    let value ← first.pySub "value"
    let v1 ← value.pyIdx 1
    match pyFloat v1 with
    | some q => return (some q)
    | none => throw ()

/-- Round `n / d` (with `d > 0`) to the nearest integer, ties to even: the
rounding CPython's `format(x, ".1f")` applies, stated on the exact rational
value (the model works with exact rationals, so the perturbation a binary
double introduces before formatting is outside the model). -/
def roundHalfEven (n : Int) (d : Int) : Int :=
  let f := Int.fdiv n d
  let r := n - d * f
  if 2 * r < d then f
  else if d < 2 * r then f + 1
  else if f % 2 = 0 then f else f + 1

/-- Python `format(q, ".NDf")` (f-string `:.1f` / `:.2f`) on an exact
rational: fixed-point rendering with `nd` digits after the point, rounding
half to even. -/
def fmtFixed (nd : Nat) (q : ℚ) : String :=
  let r := roundHalfEven (q.num * (10 : Int) ^ nd) (q.den : Int)
  let sign := if q.num < 0 then "-" else ""
  let n := r.natAbs
  let ip := n / 10 ^ nd
  let fp := n % 10 ^ nd
  let fs := toString fp
  sign ++ toString ip ++ "." ++ String.mk (List.replicate (nd - fs.length) '0') ++ fs

/-- Truthiness of a metric-query outcome as tested by `build_status_text`:
the code writes `if cpu`, so both `None` (query failed) and `0.0` are
falsy. -/
def metricTruthy : Option ℚ → Bool
  | none => false
  | some q => q != 0

/-- The lines of `build_status_text` from `app.py`.  `now` stands for
`datetime.utcnow().isoformat()`; the five `Option ℚ` arguments are the
outcomes of the five `prom_query` calls (CPU, memory, disk, network receive,
network transmit), in the order the source issues them. -/
def build_status_lines (now : String) (cpu mem disk rx tx : Option ℚ) : List String :=
  [ "*Status report — " ++ now ++ " UTC*"
  , if metricTruthy cpu then "CPU: `" ++ fmtFixed 1 (cpu.getD 0) ++ "%`" else "CPU: `N/A`"
  , if metricTruthy mem then "Memory used: `" ++ fmtFixed 1 (mem.getD 0) ++ "%`"
    else "Memory: `N/A`"
  , if metricTruthy disk then "Disk free (root): `" ++ fmtFixed 1 (disk.getD 0) ++ "%`"
    else "Disk: `N/A`"
  , if metricTruthy rx && metricTruthy tx then
      "Network RX/TX: `" ++ fmtFixed 2 (rx.getD 0) ++ "` Mbps / `" ++ fmtFixed 2 (tx.getD 0)
        ++ "` Mbps"
    else "Network: `N/A`" ]

/-- Model of `build_status_text` from `app.py`: the joined report message. -/
def build_status_text (now : String) (cpu mem disk rx tx : Option ℚ) : String :=
  String.intercalate "\n" (build_status_lines now cpu mem disk rx tx)

/-- Model of `send_telegram` from `app.py`.  The argument is the outcome of the
`requests.post` to the Bot API `sendMessage` endpoint: `.error ()` models a
raised exception (connection error, 5-second timeout), `.ok code` the final
HTTP status code.  `r.raise_for_status()` raises exactly when
`400 ≤ code < 600`; the `except` clause catches everything, logs and returns
`False`.  The function performs one attempt and returns a `Bool`, so it
never propagates an exception and never retries. -/
def send_telegram (resp : Except Unit Nat) : Bool :=
  match resp with
  | .error _ => false
  | .ok code => if 400 ≤ code ∧ code < 600 then false else true

mutual

/-- Python `str(x)` on a JSON-decoded value, as applied by f-string
interpolation: exact on strings, `None`, bools and ints; a non-integer
number is rendered as `num/den` (CPython renders the shortest roundtrip
decimal of the double, which an exact rational cannot reproduce — the
program only ever interpolates strings here); containers render their
elements with `repr`. -/
def pyStr : JSON → String
  | .null => "None"
  | .bool b => if b then "True" else "False"
  | .num q => if q.den = 1 then toString q.num else toString q.num ++ "/" ++ toString q.den
  | .str s => s
  | .arr xs => "[" ++ String.intercalate ", " (pyStrList xs) ++ "]"
  | .obj kvs => "\x7b" ++ String.intercalate ", " (pyStrKVs kvs) ++ "\x7d"

/-- Python `repr(x)`: like `str` but strings are quoted. -/
def pyRepr : JSON → String
  | .str s => String.singleton (Char.ofNat 39) ++ s ++ String.singleton (Char.ofNat 39)
  | .null => "None"
  | .bool b => if b then "True" else "False"
  | .num q => if q.den = 1 then toString q.num else toString q.num ++ "/" ++ toString q.den
  | .arr xs => "[" ++ String.intercalate ", " (pyStrList xs) ++ "]"
  | .obj kvs => "\x7b" ++ String.intercalate ", " (pyStrKVs kvs) ++ "\x7d"

/-- Python `repr` of each element of a list. -/
def pyStrList : List JSON → List String
  | [] => []
  | x :: xs => pyRepr x :: pyStrList xs

/-- Python `repr` of each field of an object. -/
def pyStrKVs : List (String × JSON) → List String
  | [] => []
  | (k, v) :: xs =>
    (String.singleton (Char.ofNat 39) ++ k ++ String.singleton (Char.ofNat 39) ++ ": "
      ++ pyRepr v) :: pyStrKVs xs

end

/-- Effects of one `telegram_webhook` request: the Telegram `sendMessage`
calls attempted, in order (target chat id and text), and the content of the
subscriber file after the request. -/
structure TgOut where
  sends : List (JSON × String)
  store : List JSON

/-- The `/telegram_webhook` handler from `app.py`.

Arguments: `now` and the five metric outcomes parameterise the
`build_status_text` call of the `/status` branch; `body` is the decoded
request JSON; `store` is the current content of the subscriber file (what
`load_subscribers()` returns — an arbitrary JSON array, `[]` when the file
is missing or unreadable).

`.error ()` means an exception escaped the handler (Flask then answers 500
instead of the JSON acknowledgement).  Each raise point in the source
precedes the `save_subscribers` call of its branch, so an escaped exception
leaves the file untouched.  The `ok: true` acknowledgement is implicit in
`.ok`. -/
def telegram_webhook (now : String) (cpu mem disk rx tx : Option ℚ)
    (body : JSON) (store : List JSON) : Except Unit TgOut := do
  let m1 ← body.pyGet "message"
  let message ← if m1.truthy then pure m1 else body.pyGet "edited_message"
  if !message.truthy then
    return ⟨[], store⟩
  let chat ← message.pySub "chat"
  let chat_id ← chat.pySub "id"
  let textJ ← message.pyGetD "text" (.str "")
  let text ← textJ.asStr
  if pyStartsWith text "/status" then
    return ⟨[(chat_id, build_status_text now cpu mem disk rx tx)], store⟩
  if pyStartsWith text "/start" then
    return ⟨[(chat_id, "Привет! Я бот мониторинга. Ты подписан на оповещения.")],
      if chat_id ∈ store then store else store ++ [chat_id]⟩
  if pyStartsWith text "/stop" then
    return ⟨[(chat_id, "Отключил оповещения для этого чата.")],
      if chat_id ∈ store then store.erase chat_id else store⟩
  return ⟨[(chat_id, "Команда не распознана. Используйте /status или /start.")], store⟩

/-- A minimal well-formed Telegram update: `message.chat.id = c`,
`message.text = t`. -/
def mkMsg (c : JSON) (t : String) : JSON :=
  .obj [("message", .obj [("chat", .obj [("id", c)]), ("text", .str t)])]

/-- The subscriber file after a `telegram_webhook` request.  When the
handler raises, the file keeps its previous content: in the source every
raise point (`data.get`, `message["chat"]["id"]`, `text.startswith`)
executes before any `save_subscribers` call. -/
def tgStoreAfter (now : String) (cpu mem disk rx tx : Option ℚ)
    (body : JSON) (store : List JSON) : List JSON :=
  match telegram_webhook now cpu mem disk rx tx body store with
  | .ok out => out.store
  | .error _ => store

/-- One alert block of the `grafana_webhook` list branch: for an entry `a`
of `payload["alerts"]`, the source reads `status`, `labels`, `annotations`
(with empty defaults), then `alertname` (default `"alert"`), the
`description`-or-`summary` annotation and the `instance`-or-`host` label
(Python `or` chains, empty-string fallback), and renders one f-string
block. -/
def alert_block (a : JSON) : Except Unit String := do
  let status ← a.pyGetD "status" (.str "")
  let labels ← a.pyGetD "labels" (.obj [])
  let annotations ← a.pyGetD "annotations" (.obj [])
  let name ← labels.pyGetD "alertname" (.str "alert")
  let d1 ← annotations.pyGet "description"
  let d2 ← annotations.pyGet "summary"
  let desc := if d1.truthy then d1 else if d2.truthy then d2 else .str ""
  let i1 ← labels.pyGet "instance"
  let i2 ← labels.pyGet "host"
  let inst := if i1.truthy then i1 else if i2.truthy then i2 else .str ""
  pure ("\n*" ++ pyStr name ++ "* — " ++ pyStr status ++ "\nInstance: `" ++ pyStr inst
    ++ "`\n" ++ pyStr desc ++ "\n")

/-- The flat-alert branch of `grafana_webhook`: `title`/`ruleName`,
`state`/`status` and `message` fields with Python `or` fallbacks. -/
def alert_flat (payload : JSON) : Except Unit String := do
  let t1 ← payload.pyGet "title"
  let t2 ← payload.pyGet "ruleName"
  let title := if t1.truthy then t1 else if t2.truthy then t2 else .str "Grafana alert"
  let s1 ← payload.pyGet "state"
  let s2 ← payload.pyGet "status"
  let state := if s1.truthy then s1 else if s2.truthy then s2 else .str ""
  let m1 ← payload.pyGet "message"
  let message := if m1.truthy then m1 else .str ""
  pure ("\n*" ++ pyStr title ++ "* — `" ++ pyStr state ++ "`\n" ++ pyStr message ++ "\n")

/-- The alert text `grafana_webhook` builds: the fixed header plus either
one block per entry of a truthy `payload["alerts"]` or the single flat
block. -/
def alert_text (payload : JSON) : Except Unit String := do
  let alerts ← payload.pyGet "alerts"
  if alerts.truthy then do
    let items ← pyIter alerts
    let blocks ← items.mapM alert_block
    pure ("[ALERT] Received notification\n" ++ String.join blocks)
  else do
    let b ← alert_flat payload
    pure ("[ALERT] Received notification\n" ++ b)

/-- Effects of one `grafana_webhook` request: whether the handler answered
`ok: true` (`accepted = true`) or the 400 `ok: false` rejection, the
`sendMessage` calls attempted in order, and the subscriber file after the
request. -/
structure GrafOut where
  accepted : Bool
  sends : List (JSON × String)
  store : List JSON

/-- The `/grafana_webhook` handler from `app.py`.  `admin` is the
`ADMIN_CHAT_ID` configuration value; `payload` the decoded request body
(`JSON.null` when the body was the literal `null`, the case the source's
`payload is None` check rejects with 400); `store` the loaded subscriber
file.  The source builds the alert text, reloads the subscribers,
substitutes `[ADMIN_CHAT_ID]` when the list is empty and `ADMIN_CHAT_ID` is
truthy, sends to each recipient, and never calls `save_subscribers`. -/
def grafana_webhook (admin : JSON) (payload : JSON) (store : List JSON) :
    Except Unit GrafOut :=
  if payload = .null then .ok ⟨false, [], store⟩
  else
    match alert_text payload with
    | .error e => .error e
    | .ok text =>
      let subs := if store.isEmpty && admin.truthy then [admin] else store
      .ok ⟨true, subs.map (fun c => (c, text)), store⟩

/-- Response of the `/set_telegram_webhook` handler: the 400
`\x7b"error": "url required"\x7d` rejection, or the Telegram API's JSON
response relayed verbatim. -/
inductive SWResp where
  | badRequest
  | relayed (body : JSON)

/-- Effects of one `set_telegram_webhook` request: the response and the list
of `url` values forwarded to the Telegram `setWebhook` API (empty or a
singleton). -/
structure SWOut where
  resp : SWResp
  calls : List JSON

/-- The `/set_telegram_webhook` handler from `app.py`.  `platformResp` is
the outcome of the (at most one) `requests.post` to the Telegram
`setWebhook` API combined with `r.json()`: `.error ()` a raised exception
(transport failure, timeout, non-JSON body — the source wraps this call in
no `try`, so it escapes the handler), `.ok r` the decoded response.  The
source takes `data.get("url")` and rejects falsy values with 400 before any
outbound call. -/
def set_webhook (platformResp : Except Unit JSON) (body : JSON) : Except Unit SWOut := do
  let url ← body.pyGet "url"
  if !url.truthy then
    return ⟨.badRequest, []⟩
  let r ← platformResp
  return ⟨.relayed r, [url]⟩

/-- Claim C4 (confirmed): `prom_query` returns `42.5` for a backend response
with top-level status `"success"` whose first result carries the value pair
`["<ts>", "42.5"]` (any timestamp, any further results); it returns the
no-value sentinel `none` for a non-`"success"` status, for a `"success"`
response with an empty result list, for a transport failure, and for
malformed responses (missing `data` key; non-object body). -/
theorem C4_prom_query :
    (∀ ts rest,
      prom_query (some (JSON.obj [("status", JSON.str "success"),
        ("data", JSON.obj [("result",
          JSON.arr (JSON.obj [("value", JSON.arr [JSON.str ts, JSON.str "42.5"])]
            :: rest))])])) = some (mkRat 85 2)) ∧
    (∀ kvs s, s ≠ "success" → kvs.lookup "status" = some (JSON.str s) →
      prom_query (some (JSON.obj kvs)) = none) ∧
    prom_query (some (JSON.obj [("status", JSON.str "success"),
      ("data", JSON.obj [("result", JSON.arr [])])])) = none ∧
    prom_query none = none ∧
    prom_query (some (JSON.obj [("status", JSON.str "success")])) = none ∧
    prom_query (some (JSON.arr [])) = none := by
  refine ⟨fun ts rest => rfl, ?_, by decide, by decide, by decide, by decide⟩
  intro kvs s hs hl
  simp [prom_query, prom_query.prom_extract, JSON.pySub, hl, hs, Bind.bind, Except.bind,
    Pure.pure, Except.pure]

/-- Witness for C4: a concrete `status: "error"` response yields `none`. -/
theorem C4_prom_query_witness :
    prom_query (some (JSON.obj [("status", JSON.str "error")])) = none :=
  C4_prom_query.2.1 [("status", JSON.str "error")] "error" (by decide) (by decide)

/-- Counterexample to claim C8 as stated: a 302 (non-2xx) final response
makes `send_telegram` return `True`, because `raise_for_status` only raises
for status codes in 400–599. -/
theorem C8_counterexample :
    send_telegram (Except.ok 302) = true ∧ ¬(200 ≤ 302 ∧ 302 ≤ 299) := by decide

/-- Claim C8 (corrected): `send_telegram` returns a `Bool`, never
propagating an exception and performing a single attempt; it returns `True`
exactly when the `requests.post` call itself succeeded and the final status
code is outside 400–599 (`raise_for_status`'s raising range) — so on 2xx,
but also on a 3xx final status — and `False` on any transport
error/timeout or a 4xx/5xx response. -/
theorem C8_send_telegram :
    (∀ r : Except Unit Nat,
      send_telegram r = true ↔ ∃ code, r = .ok code ∧ (code < 400 ∨ 600 ≤ code)) ∧
    (∀ e, send_telegram (Except.error e) = false) := by
  constructor
  · intro r
    cases r with
    | error e => simp [send_telegram]
    | ok code =>
      simp only [send_telegram, Except.ok.injEq]
      constructor
      · intro h
        refine ⟨code, rfl, ?_⟩
        by_contra hc
        push_neg at hc
        rw [if_pos ⟨hc.1, by omega⟩] at h
        exact Bool.false_ne_true h
      · rintro ⟨c, hc, hrange⟩
        subst hc
        rw [if_neg (by omega)]
  · intro e
    rfl

/-- The fixed-point rendering always contains a decimal point (used to
separate formatted metric lines from the `N/A` lines). -/
theorem dot_mem_fmtFixed (nd : Nat) (q : ℚ) : '.' ∈ (fmtFixed nd q).data := by
  have h : '.' ∈ (".").data := by decide
  unfold fmtFixed
  simp only [String.data_append, List.mem_append]
  tauto

/-- Strings differ when one contains a character the other lacks. -/
theorem ne_of_dot_mem {s t : String} (hs : '.' ∈ s.data) (ht : '.' ∉ t.data) : s ≠ t :=
  fun he => ht (he ▸ hs)

/-- Counterexample to claim C1 as stated: when the CPU query returns the
value `0.0`, the CPU line still shows `N/A` — the source tests `if cpu`,
Python truthiness, not `is not None` — so "shows N/A exactly when the query
returned no value" fails. -/
theorem C1_counterexample :
    ((build_status_lines "T" (some 0) (some (mkRat 50 1)) (some (mkRat 50 1))
        (some (mkRat 1 1)) (some (mkRat 1 1))).get? 1 = some "CPU: `N/A`") ∧
    (some (0 : ℚ) : Option ℚ) ≠ none := by decide

/-- Claim C1 (corrected): the report is five lines — UTC-timestamp header,
then CPU, memory, disk, network in that fixed order; the CPU/memory/disk
line shows the literal `N/A` marker exactly when that query returned no
value or returned `0` (Python falsiness), and otherwise the value formatted
to one decimal place; the single combined network line shows `N/A` exactly
when either network query returned no value or `0`, and otherwise both
rates formatted to two decimal places. -/
theorem C1_report (now : String) (cpu mem disk rx tx : Option ℚ) :
    (build_status_lines now cpu mem disk rx tx).length = 5 ∧
    (build_status_lines now cpu mem disk rx tx).get? 0 =
      some ("*Status report — " ++ now ++ " UTC*") ∧
    ((build_status_lines now cpu mem disk rx tx).get? 1 = some "CPU: `N/A`" ↔
      (cpu = none ∨ cpu = some 0)) ∧
    (∀ q, cpu = some q → q ≠ 0 →
      (build_status_lines now cpu mem disk rx tx).get? 1 =
        some ("CPU: `" ++ fmtFixed 1 q ++ "%`")) ∧
    ((build_status_lines now cpu mem disk rx tx).get? 2 = some "Memory: `N/A`" ↔
      (mem = none ∨ mem = some 0)) ∧
    (∀ q, mem = some q → q ≠ 0 →
      (build_status_lines now cpu mem disk rx tx).get? 2 =
        some ("Memory used: `" ++ fmtFixed 1 q ++ "%`")) ∧
    ((build_status_lines now cpu mem disk rx tx).get? 3 = some "Disk: `N/A`" ↔
      (disk = none ∨ disk = some 0)) ∧
    (∀ q, disk = some q → q ≠ 0 →
      (build_status_lines now cpu mem disk rx tx).get? 3 =
        some ("Disk free (root): `" ++ fmtFixed 1 q ++ "%`")) ∧
    ((build_status_lines now cpu mem disk rx tx).get? 4 = some "Network: `N/A`" ↔
      (rx = none ∨ rx = some 0 ∨ tx = none ∨ tx = some 0)) ∧
    (∀ a b, rx = some a → tx = some b → a ≠ 0 → b ≠ 0 →
      (build_status_lines now cpu mem disk rx tx).get? 4 =
        some ("Network RX/TX: `" ++ fmtFixed 2 a ++ "` Mbps / `" ++ fmtFixed 2 b
          ++ "` Mbps")) := by
  refine ⟨rfl, rfl, ?_, ?_, ?_, ?_, ?_, ?_, ?_, ?_⟩
  · rcases cpu with _ | q
    · simp [build_status_lines, metricTruthy]
    · by_cases hq : q = 0
      · subst hq; simp [build_status_lines, metricTruthy]
      · simp only [build_status_lines, metricTruthy, bne_iff_ne, ne_eq, hq,
          not_false_eq_true, if_true, List.get?, Option.some.injEq, Option.some_ne_none,
          false_or]
        constructor
        · intro h
          exact absurd h (ne_of_dot_mem (by
            simp only [String.data_append, List.mem_append]
            have := dot_mem_fmtFixed 1 q
            tauto) (by decide))
        · intro h
          exact absurd h (by simp [hq])
  · intro q hql hq
    subst hql
    simp [build_status_lines, metricTruthy, hq]
  · rcases mem with _ | q
    · simp [build_status_lines, metricTruthy]
    · by_cases hq : q = 0
      · subst hq; simp [build_status_lines, metricTruthy]
      · simp only [build_status_lines, metricTruthy, bne_iff_ne, ne_eq, hq,
          not_false_eq_true, if_true, List.get?, Option.some.injEq, Option.some_ne_none,
          false_or]
        constructor
        · intro h
          exact absurd h (ne_of_dot_mem (by
            simp only [String.data_append, List.mem_append]
            have := dot_mem_fmtFixed 1 q
            tauto) (by decide))
        · intro h
          exact absurd h (by simp [hq])
  · intro q hql hq
    subst hql
    simp [build_status_lines, metricTruthy, hq]
  · rcases disk with _ | q
    · simp [build_status_lines, metricTruthy]
    · by_cases hq : q = 0
      · subst hq; simp [build_status_lines, metricTruthy]
      · simp only [build_status_lines, metricTruthy, bne_iff_ne, ne_eq, hq,
          not_false_eq_true, if_true, List.get?, Option.some.injEq, Option.some_ne_none,
          false_or]
        constructor
        · intro h
          exact absurd h (ne_of_dot_mem (by
            simp only [String.data_append, List.mem_append]
            have := dot_mem_fmtFixed 1 q
            tauto) (by decide))
        · intro h
          exact absurd h (by simp [hq])
  · intro q hql hq
    subst hql
    simp [build_status_lines, metricTruthy, hq]
  · rcases rx with _ | a
    · simp [build_status_lines, metricTruthy]
    · rcases tx with _ | b
      · simp [build_status_lines, metricTruthy]
      · by_cases ha : a = 0
        · subst ha; simp [build_status_lines, metricTruthy]
        · by_cases hb : b = 0
          · subst hb; simp [build_status_lines, metricTruthy, ha]
          · have hne : ("Network RX/TX: `" ++ fmtFixed 2 a ++ "` Mbps / `" ++ fmtFixed 2 b
                ++ "` Mbps") ≠ "Network: `N/A`" :=
              ne_of_dot_mem (by
                simp only [String.data_append, List.mem_append]
                have := dot_mem_fmtFixed 2 a
                tauto) (by decide)
            simp [build_status_lines, metricTruthy, ha, hb, hne]
  · intro a b hra htb ha hb
    subst hra
    subst htb
    simp [build_status_lines, metricTruthy, ha, hb]

/-- Witness for C1: with a CPU reading of 42.5 the CPU line carries the
one-decimal formatting. -/
theorem C1_report_witness :
    (build_status_lines "T" (some (mkRat 425 10)) none (some (mkRat 85 2))
      (some (mkRat 1 3)) (some (mkRat 2 1))).get? 1 =
      some ("CPU: `" ++ fmtFixed 1 (mkRat 425 10) ++ "%`") :=
  (C1_report "T" (some (mkRat 425 10)) none (some (mkRat 85 2)) (some (mkRat 1 3))
    (some (mkRat 2 1))).2.2.2.1 (mkRat 425 10) rfl (by decide)

/-- Effect of a `/start` message from chat `c`: greet, and append `c` to the
subscriber list exactly when it is absent. -/
theorem tg_start_eq (now : String) (cpu mem disk rx tx : Option ℚ) (c : JSON)
    (s : List JSON) :
    telegram_webhook now cpu mem disk rx tx (mkMsg c "/start") s =
      .ok ⟨[(c, "Привет! Я бот мониторинга. Ты подписан на оповещения.")],
           if c ∈ s then s else s ++ [c]⟩ := rfl

/-- Effect of a `/stop` message from chat `c`: remove the first occurrence
of `c` when present, then send the confirmation in either case. -/
theorem tg_stop_eq (now : String) (cpu mem disk rx tx : Option ℚ) (c : JSON)
    (s : List JSON) :
    telegram_webhook now cpu mem disk rx tx (mkMsg c "/stop") s =
      .ok ⟨[(c, "Отключил оповещения для этого чата.")],
           if c ∈ s then s.erase c else s⟩ := rfl

/-- The persisted store after a `/start` message. -/
theorem tgStoreAfter_start (now : String) (cpu mem disk rx tx : Option ℚ) (c : JSON)
    (s : List JSON) :
    tgStoreAfter now cpu mem disk rx tx (mkMsg c "/start") s =
      if c ∈ s then s else s ++ [c] := by
  simp [tgStoreAfter, tg_start_eq]

/-- The persisted store after a `/stop` message. -/
theorem tgStoreAfter_stop (now : String) (cpu mem disk rx tx : Option ℚ) (c : JSON)
    (s : List JSON) :
    tgStoreAfter now cpu mem disk rx tx (mkMsg c "/stop") s =
      if c ∈ s then s.erase c else s := by
  simp [tgStoreAfter, tg_stop_eq]

/-- Counterexample to claim C2 as stated: the body
`\x7b"message": \x7b"text": "hi"\x7d\x7d` — whose `message` object lacks the
`chat` field — makes `telegram_webhook` raise `KeyError` at
`message["chat"]["id"]` instead of acknowledging. -/
theorem C2_counterexample :
    telegram_webhook "T" none none none none none
      (JSON.obj [("message", JSON.obj [("text", JSON.str "hi")])]) [] =
      .error () := rfl

/-- Claim C2 (corrected): the inbound-message handler tolerates an absent or
falsy `message`/`edited_message` via default-empty fallbacks (it
acknowledges at once with no sends and no store change), and a well-formed
message (`chat.id` present, `text` a string) always yields an
acknowledgement whatever the text; but a truthy `message` object lacking
`chat` or `chat.id` makes the handler raise (`KeyError`) past its own
boundary, so the handler is not exception-free for every JSON body. -/
theorem C2_webhook_boundary (now : String) (cpu mem disk rx tx : Option ℚ) :
    (∀ kvs store, ((kvs.lookup "message").getD .null).truthy = false →
      ((kvs.lookup "edited_message").getD .null).truthy = false →
      telegram_webhook now cpu mem disk rx tx (.obj kvs) store = .ok ⟨[], store⟩) ∧
    (∀ c t store,
      telegram_webhook now cpu mem disk rx tx (mkMsg c t) store ≠ .error ()) ∧
    (∀ store, telegram_webhook now cpu mem disk rx tx
      (.obj [("message", .obj [("text", .str "hi")])]) store = .error ()) := by
  refine ⟨?_, ?_, fun store => rfl⟩
  · intro kvs store h1 h2
    simp [telegram_webhook, JSON.pyGet, h1, h2, Bind.bind, Except.bind, Pure.pure,
      Except.pure]
  · intro c t store
    have htext : (List.lookup "text"
        [("chat", JSON.obj [("id", c)]), ("text", JSON.str t)]).getD (JSON.str "") =
        JSON.str t := rfl
    by_cases h1 : pyStartsWith t "/status" <;>
      by_cases h2 : pyStartsWith t "/start" <;>
        by_cases h3 : pyStartsWith t "/stop" <;>
          simp [telegram_webhook, mkMsg, JSON.pyGet, JSON.pySub, JSON.pyGetD, JSON.asStr,
            JSON.truthy, Bind.bind, Except.bind, Pure.pure, Except.pure, htext, h1, h2, h3]

/-- Witness for C2: a body with neither `message` nor `edited_message` is
acknowledged with no effects. -/
theorem C2_webhook_boundary_witness :
    telegram_webhook "T" none none none none none (JSON.obj [("a", JSON.num 1)]) [] =
      .ok ⟨[], []⟩ :=
  (C2_webhook_boundary "T" none none none none none).1 [("a", JSON.num 1)] []
    (by decide) (by decide)

/-- Counterexample to claim C3 as stated: when the chat is already
subscribed, `/start` leaves the store unchanged but `/stop` removes the
identifier, so for the initial store `[1]` the `/start`-then-`/stop` pair
ends with `[]`, not the initial state. -/
theorem C3_counterexample :
    tgStoreAfter "T" none none none none none (mkMsg (JSON.num 1) "/stop")
      (tgStoreAfter "T" none none none none none (mkMsg (JSON.num 1) "/start")
        [JSON.num 1]) ≠ [JSON.num 1] := by decide

/-- Claim C3 (corrected): for every chat identifier and every initial
subscriber store in which that identifier does not occur, processing
`/start` from that chat followed by `/stop` from the same chat restores the
store exactly (no crash mid-write, no concurrent request: the model threads
the store sequentially). -/
theorem C3_start_stop (now : String) (cpu mem disk rx tx : Option ℚ) (c : JSON)
    (s : List JSON) (h : c ∉ s) :
    tgStoreAfter now cpu mem disk rx tx (mkMsg c "/stop")
      (tgStoreAfter now cpu mem disk rx tx (mkMsg c "/start") s) = s := by
  rw [tgStoreAfter_start, if_neg h, tgStoreAfter_stop,
    if_pos (by simp : c ∈ s ++ [c]), List.erase_append_right _ h,
    List.erase_cons_head, List.append_nil]

/-- Witness for C3: starting then stopping from chat 7 over the store `[8]`
restores `[8]`. -/
theorem C3_start_stop_witness :
    tgStoreAfter "T" none none none none none (mkMsg (JSON.num 7) "/stop")
      (tgStoreAfter "T" none none none none none (mkMsg (JSON.num 7) "/start")
        [JSON.num 8]) = [JSON.num 8] :=
  C3_start_stop "T" none none none none none (JSON.num 7) [JSON.num 8] (by decide)

/-- Claim C7 (confirmed): a `/start` from a chat already present leaves the
persisted store exactly unchanged, for any number of repetitions — so no
duplicate entry is ever introduced and insertion order is preserved; a
store holding the identifier at most once still holds it at most once after
any number of `/start`s; and the handler appends the sender exactly when
absent. -/
theorem C7_start_no_duplicates (now : String) (cpu mem disk rx tx : Option ℚ)
    (c : JSON) (s : List JSON) (n : Nat) :
    (c ∈ s →
      (fun t => tgStoreAfter now cpu mem disk rx tx (mkMsg c "/start") t)^[n] s = s) ∧
    (s.count c ≤ 1 →
      ((fun t => tgStoreAfter now cpu mem disk rx tx (mkMsg c "/start") t)^[n] s).count c
        ≤ 1) ∧
    (c ∉ s → tgStoreAfter now cpu mem disk rx tx (mkMsg c "/start") s = s ++ [c]) := by
  refine ⟨?_, ?_, fun h => by rw [tgStoreAfter_start, if_neg h]⟩
  · intro h
    induction n with
    | zero => rfl
    | succ n ih =>
      rw [Function.iterate_succ_apply, tgStoreAfter_start, if_pos h, ih]
  · induction n generalizing s with
    | zero => exact fun h => h
    | succ n ih =>
      intro h
      rw [Function.iterate_succ_apply]
      apply ih
      rw [tgStoreAfter_start]
      by_cases hc : c ∈ s
      · rw [if_pos hc]; exact h
      · rw [if_neg hc, List.count_append, List.count_eq_zero.mpr hc]
        simp

/-- Witness for C7: three repeated `/start`s from the already-subscribed
chat 1 leave the store `[1]` unchanged. -/
theorem C7_start_no_duplicates_witness :
    (fun t => tgStoreAfter "T" none none none none none (mkMsg (JSON.num 1) "/start") t)^[3]
      [JSON.num 1] = [JSON.num 1] :=
  (C7_start_no_duplicates "T" none none none none none (JSON.num 1) [JSON.num 1] 3).1
    (by decide)

/-- Claim C10 (confirmed): `load_subscribers` does not enforce uniqueness
(the store is whatever JSON array the file holds), and a `/stop` from chat
`c` removes only the first occurrence of `c` (`list.remove`), so when `c`
occurs at least twice it is still present in the saved store; the
confirmation message is sent to `c` whether or not `c` was present. -/
theorem C10_stop_first_occurrence (now : String) (cpu mem disk rx tx : Option ℚ)
    (c : JSON) (s : List JSON) :
    (telegram_webhook now cpu mem disk rx tx (mkMsg c "/stop") s =
      .ok ⟨[(c, "Отключил оповещения для этого чата.")],
           if c ∈ s then s.erase c else s⟩) ∧
    (2 ≤ s.count c → c ∈ tgStoreAfter now cpu mem disk rx tx (mkMsg c "/stop") s) := by
  refine ⟨tg_stop_eq now cpu mem disk rx tx c s, ?_⟩
  intro h2
  have hc : c ∈ s := List.count_pos_iff.mp (by omega)
  rw [tgStoreAfter_stop, if_pos hc]
  apply List.count_pos_iff.mp
  rw [List.count_erase_self]
  omega

/-- Witness for C10: with the duplicated store `[5, 5]`, a `/stop` from
chat 5 leaves chat 5 still subscribed. -/
theorem C10_stop_first_occurrence_witness :
    JSON.num 5 ∈ tgStoreAfter "T" none none none none none (mkMsg (JSON.num 5) "/stop")
      [JSON.num 5, JSON.num 5] :=
  (C10_stop_first_occurrence "T" none none none none none (JSON.num 5)
    [JSON.num 5, JSON.num 5]).2 (by decide)

/-- Claim C5 (confirmed): whenever the alert webhook acknowledges success,
it attempted exactly one delivery per recipient: to the single fallback
recipient `ADMIN_CHAT_ID` when the loaded subscriber list was empty and the
fallback is truthy, and to exactly the listed subscribers (in order, with no
extra send to the fallback) when the list was non-empty. -/
theorem C5_alert_delivery (admin payload : JSON) (store : List JSON) (out : GrafOut)
    (h : grafana_webhook admin payload store = .ok out) (hacc : out.accepted = true) :
    (store = [] → admin.truthy = true → out.sends.map Prod.fst = [admin]) ∧
    (store ≠ [] → out.sends.map Prod.fst = store) := by
  unfold grafana_webhook at h
  by_cases hnull : payload = JSON.null
  · rw [if_pos hnull] at h
    cases h
    cases hacc
  · rw [if_neg hnull] at h
    cases halert : alert_text payload with
    | error e => rw [halert] at h; cases h
    | ok text =>
      rw [halert] at h
      cases h
      constructor
      · intro hs ha
        subst hs
        simp [ha, List.map_map, Function.comp]
      · intro hs
        have hie : store.isEmpty = false := by
          cases store with
          | nil => exact absurd rfl hs
          | cons a l => rfl
        simp only [hie, Bool.false_and, Bool.false_eq_true, if_false, List.map_map]
        exact List.map_id store

/-- Witness for C5: a flat Grafana alert with an empty subscriber list and
the default fallback recipient is delivered to the fallback exactly once. -/
theorem C5_alert_delivery_witness :
    (GrafOut.sends ⟨true, [(JSON.str "632306300",
        "[ALERT] Received notification\n\n*X* — ``\n\n")], []⟩).map Prod.fst =
      [JSON.str "632306300"] :=
  (C5_alert_delivery (JSON.str "632306300") (JSON.obj [("title", JSON.str "X")]) []
    ⟨true, [(JSON.str "632306300", "[ALERT] Received notification\n\n*X* — ``\n\n")], []⟩
    rfl rfl).1 rfl rfl

/-- Claim C9 (confirmed): the alert webhook never writes the subscriber
file — the source's `grafana_webhook` has no `save_subscribers` call — so
the persisted store after any request (success or 400 rejection) equals the
store before it; in particular falling back to `ADMIN_CHAT_ID` does not add
that recipient to the persisted list. -/
theorem C9_grafana_frame (admin payload : JSON) (store : List JSON) (out : GrafOut)
    (h : grafana_webhook admin payload store = .ok out) :
    out.store = store ∧ (admin ∉ store → admin ∉ out.store) := by
  have hst : out.store = store := by
    unfold grafana_webhook at h
    by_cases hnull : payload = JSON.null
    · rw [if_pos hnull] at h; cases h; rfl
    · rw [if_neg hnull] at h
      cases halert : alert_text payload with
      | error e => rw [halert] at h; cases h
      | ok text => rw [halert] at h; cases h; rfl
  exact ⟨hst, fun hn => hst ▸ hn⟩

/-- Witness for C9: the fallback delivery over the store `[3]`... the
request leaves the store `[3]` untouched. -/
theorem C9_grafana_frame_witness :
    (GrafOut.store ⟨true, [(JSON.num 3,
        "[ALERT] Received notification\n\n*X* — ``\n\n")], [JSON.num 3]⟩) = [JSON.num 3] :=
  (C9_grafana_frame (JSON.str "632306300") (JSON.obj [("title", JSON.str "X")])
    [JSON.num 3]
    ⟨true, [(JSON.num 3, "[ALERT] Received notification\n\n*X* — ``\n\n")], [JSON.num 3]⟩
    rfl).1

/-- Counterexample to claim C6 as stated: the body `\x7b"url": ""\x7d`
contains a `url` field, yet the handler answers 400 and performs no
outbound registration call — the source tests `if not url`, Python
truthiness, not presence. -/
theorem C6_counterexample :
    List.lookup "url" [("url", JSON.str "")] = some (JSON.str "") ∧
    set_webhook (.ok JSON.null) (JSON.obj [("url", JSON.str "")]) =
      .ok ⟨.badRequest, []⟩ :=
  ⟨rfl, rfl⟩

/-- Claim C6 (corrected): for every JSON-object body whose `url` field is
absent or falsy (missing key, `null`, `""`, `0`, `false`, empty
containers), the registration handler answers the 400 client error and
makes no call to the platform's webhook-registration API; for every body
whose `url` value is truthy, it forwards exactly that value and relays the
platform's JSON response verbatim. -/
theorem C6_set_webhook (resp : Except Unit JSON) (kvs : List (String × JSON)) :
    (((kvs.lookup "url").getD .null).truthy = false →
      set_webhook resp (.obj kvs) = .ok ⟨.badRequest, []⟩) ∧
    (∀ u r, kvs.lookup "url" = some u → u.truthy = true → resp = .ok r →
      set_webhook resp (.obj kvs) = .ok ⟨.relayed r, [u]⟩) := by
  constructor
  · intro h
    simp [set_webhook, JSON.pyGet, h, Bind.bind, Except.bind, Pure.pure, Except.pure]
  · intro u r hu hut hr
    subst hr
    simp [set_webhook, JSON.pyGet, hu, hut, Bind.bind, Except.bind, Pure.pure, Except.pure]

/-- Witness for C6: a truthy `url` is forwarded and the platform response
relayed. -/
theorem C6_set_webhook_witness :
    set_webhook (.ok (JSON.bool true)) (JSON.obj [("url", JSON.str "https://example/hook")])
      = .ok ⟨.relayed (JSON.bool true), [JSON.str "https://example/hook"]⟩ :=
  (C6_set_webhook (.ok (JSON.bool true)) [("url", JSON.str "https://example/hook")]).2
    (JSON.str "https://example/hook") (JSON.bool true) rfl rfl rfl
